import Mathlib

/-!
A shallow embedding of `src/xtream_proxy.py`, a caching filtering reverse
proxy for an Xtream-Codes style catalog API, together with theorems about
its filtering engine (`filter_streams`, `filter_categories`), its cache
refresh orchestration (`refresh_cache`) and its request handler
(`local_api`).

Modelling conventions:
* Python strings are Lean `String`s; Python's substring test `n in name`
  is `pyIn`, Python's `str.strip()` is `pyStrip` (ASCII whitespace), and
  `str.lower()` is `pyLower` (character-wise `Char.toLower`).
* A JSON stream/category record is a structure with its two relevant
  fields as `Option String` (`none` = field absent) plus an opaque `payload`
  number standing for all passthrough fields preserved verbatim.
* The global mutable list `whitelist_category_updated` is threaded
  explicitly: `filter_streams` takes the current list and returns the
  extended one; the cache and timestamp globals form a `CacheState`.
* Upstream HTTP fetches are an oracle `Upstream` giving each action's
  outcome (`Except FetchErr`); an `.error` models a `requests` exception
  (network error / non-2xx / bad JSON), which in the Python propagates.
* `refresh_cache` returns the new state, the list of actions for which a
  fetch was attempted (in order) and a flag saying whether an exception
  escaped (true = the Python function raised).
-/

namespace XtreamProxy

/-! ### Python string primitives -/

/-- Boolean list-prefix test (needle, hay). -/
def listIsPrefixOfB : List Char → List Char → Bool
  | [], _ => true
  | _ :: _, [] => false
  | a :: as, b :: bs => a = b && listIsPrefixOfB as bs

/-- Boolean list-infix test (needle, hay): Python `needle in hay` on strings. -/
def listIsInfixB (needle : List Char) : List Char → Bool
  | [] => needle.isEmpty
  | b :: bs => listIsPrefixOfB needle (b :: bs) || listIsInfixB needle bs

/-- Python `needle in hay` for strings. -/
def pyIn (needle hay : String) : Bool :=
  listIsInfixB needle.data hay.data

/-- The characters Python `str.strip()` removes (ASCII whitespace). -/
def pyIsSpace (c : Char) : Bool :=
  c = ' ' || c = '\t' || c = '\n' || c = '\x0d' || c = '\x0b' || c = '\x0c'

/-- Python `s.strip()`. -/
def pyStrip (s : String) : String :=
  ⟨((s.data.dropWhile pyIsSpace).reverse.dropWhile pyIsSpace).reverse⟩

/-- Python `s.lower()` (ASCII view). -/
def pyLower (s : String) : String :=
  ⟨s.data.map Char.toLower⟩

/-- The one-character NUL string `"\0"` used by the source as the default
for missing `name` / `category_id` fields. -/
def nulStr : String := "\x00"

/-! ### Records and policy -/

/-- A stream record: `name` and `category_id` when present, plus `payload`
abstracting every other JSON field (preserved verbatim by filtering). -/
structure StreamRecord where
  name : Option String
  category_id : Option String
  payload : Nat
deriving DecidableEq, Repr

/-- A category record: `category_id` when present, plus passthrough fields. -/
structure CategoryRecord where
  category_id : Option String
  payload : Nat
deriving DecidableEq, Repr

/-- The three static lists read from the config file at startup
(`WHITELIST`, `BLACKLIST`, `WHITELIST_CATEGORY`). Python keeps them as
sets; only membership is ever used, so lists are a faithful model. -/
structure Policy where
  whitelist : List String
  blacklist : List String
  whitelistCategory : List String
deriving DecidableEq, Repr

/-- `whitelist_category_updated = [x for x in WHITELIST_CATEGORY]`:
the mutable discovered-category list as seeded at module load. Appended
stream category ids may be `None` in Python, hence `Option String`. -/
def initialDiscovered (p : Policy) : List (Option String) :=
  p.whitelistCategory.map some

/-! ### The filtering engine -/

/-- `name = str(s.get("name", "\0")).strip().lower()`. -/
def normName (s : StreamRecord) : String :=
  pyLower (pyStrip (s.name.getD nulStr))

/-- `good_stream = len([n for n in WHITELIST if n in name]) > 0 or
category_id in WHITELIST_CATEGORY` with
`category_id = s.get("category_id", "\0")`. Note: the membership test is
against the STATIC `WHITELIST_CATEGORY`, not the mutable discovered list. -/
def good_stream (p : Policy) (s : StreamRecord) : Bool :=
  p.whitelist.any (fun n => pyIn n (normName s))
    || p.whitelistCategory.contains (s.category_id.getD nulStr)

/-- `bad_stream = len([n for n in BLACKLIST if n in name]) > 0`. -/
def bad_stream (p : Policy) (s : StreamRecord) : Bool :=
  p.blacklist.any (fun n => pyIn n (normName s))

/-- A record survives the loop body (`if not good_stream or bad_stream:
continue`) exactly when it is good and not bad. -/
def streamKept (p : Policy) (s : StreamRecord) : Bool :=
  good_stream p s && !bad_stream p s

/-- `filter_streams(streams)`: returns the kept records in input order and
the extended `whitelist_category_updated` list (the kept records'
`category_id`s — read with no default, so possibly `none` — are appended
in order). -/
def filter_streams (p : Policy) :
    List StreamRecord → List (Option String) →
      List StreamRecord × List (Option String)
  | [], w => ([], w)
  | s :: rest, w =>
    if streamKept p s then
      let r := filter_streams p rest (w ++ [s.category_id])
      (s :: r.1, r.2)
    else
      filter_streams p rest w

/-- `filter_categories(categories)`: drops a record when
`whitelist_category_updated` is non-empty and
`c.get("category_id", "\0")` is not a member; mutates nothing. -/
def filter_categories (w : List (Option String)) :
    List CategoryRecord → List CategoryRecord
  | [] => []
  | c :: rest =>
    if !w.isEmpty && !w.contains (some (c.category_id.getD nulStr)) then
      filter_categories w rest
    else
      c :: filter_categories w rest

/-- Modelled from the spec (for comparison with the code's `good_stream`):
`IsStreamAdmitted(name, categoryId)` as §4.1 words it — true if the name
whitelist is empty, OR some whitelist entry is a substring of the
lowercased name, OR `categoryId` is a member of the mutable
`DiscoveredCategoryWhitelist`. -/
def specIsStreamAdmitted (p : Policy) (w : List (Option String))
    (s : StreamRecord) : Bool :=
  p.whitelist.isEmpty
    || p.whitelist.any (fun n => pyIn n (normName s))
    || w.contains s.category_id

/-! ### Upstream oracle and cache state -/

/-- A failed upstream fetch: `requests` raising on network error, timeout,
non-2xx status (`raise_for_status`) or malformed JSON. -/
inductive FetchErr where
  | fetchFailed
deriving DecidableEq, Repr

/-- The `user_info` object inside the `server_info` payload. -/
structure UserInfo where
  username : String
  password : String
  payload : Nat
deriving DecidableEq, Repr

/-- The nested `server_info` object inside the `server_info` payload. -/
structure ServerMeta where
  url : String
  payload : Nat
deriving DecidableEq, Repr

/-- The JSON returned by the no-action (`server_info`) fetch; `none`
for a nested object models a missing key (KeyError in the redaction). -/
structure ServerInfo where
  user_info : Option UserInfo
  server_info : Option ServerMeta
  payload : Nat
deriving DecidableEq, Repr

/-- The upstream server as an oracle: the outcome of each action's fetch.
The three passthrough actions carry an opaque JSON payload (`Nat`); the
request's extra id parameter is abstracted into the oracle. -/
structure Upstream where
  server_info : Except FetchErr ServerInfo
  get_live_streams : Except FetchErr (List StreamRecord)
  get_series : Except FetchErr (List StreamRecord)
  get_vod_streams : Except FetchErr (List StreamRecord)
  get_live_categories : Except FetchErr (List CategoryRecord)
  get_series_categories : Except FetchErr (List CategoryRecord)
  get_vod_categories : Except FetchErr (List CategoryRecord)
  get_series_info : Except FetchErr Nat
  get_vod_info : Except FetchErr Nat
  get_simple_data_table : Except FetchErr Nat

/-- The process's mutable globals: the `CACHE` dict (a field per key ever
assigned; `none` = key never populated), `LAST_REFRESH`, and the
`whitelist_category_updated` list. -/
structure CacheState where
  server_info : Option ServerInfo
  get_live_streams : Option (List StreamRecord)
  get_series : Option (List StreamRecord)
  get_vod_streams : Option (List StreamRecord)
  get_live_categories : Option (List CategoryRecord)
  get_series_categories : Option (List CategoryRecord)
  get_vod_categories : Option (List CategoryRecord)
  lastRefresh : Int
  whitelist_category_updated : List (Option String)
deriving DecidableEq, Repr

/-- `REFRESH_INTERVAL = 24 * 3600`. -/
def REFRESH_INTERVAL : Int := 24 * 3600

/-- The credential/URL redaction of the cached `server_info`: three
sequential assignments inside one `try`, so a missing `user_info` aborts
all three and a missing nested `server_info` aborts only the URL one. -/
def redactServerInfo (si : ServerInfo) : ServerInfo :=
  match si.user_info with
  | none => si
  | some ui =>
    let si := { si with user_info := some { ui with username := "-", password := "-" } }
    match si.server_info with
    | none => si
    | some m => { si with server_info := some { m with url := "-" } }

/-- The fetch sequence of a full refresh, in source order. -/
def fullTrace : List String :=
  ["server_info", "get_live_streams", "get_series", "get_vod_streams",
   "get_live_categories", "get_series_categories", "get_vod_categories"]

/-- `refresh_cache()`, with `now = time.time()` passed explicitly.
Returns the new globals, the actions for which a fetch was attempted, and
whether an exception escaped (true = the Python function raised; note the
cache assignments made before the failing fetch are kept, and
`LAST_REFRESH` is only assigned after the last fetch). -/
def refresh_cache (p : Policy) (u : Upstream) (now : Int) (st : CacheState) :
    CacheState × List String × Bool :=
  if now - st.lastRefresh < REFRESH_INTERVAL then
    (st, [], false)
  else
    match u.server_info with
    | .error _ => (st, ["server_info"], true)
    | .ok si =>
      let st := { st with server_info := some (redactServerInfo si) }
      match u.get_live_streams with
      | .error _ => (st, ["server_info", "get_live_streams"], true)
      | .ok ls =>
        let r := filter_streams p ls st.whitelist_category_updated
        let st := { st with get_live_streams := some r.1,
                            whitelist_category_updated := r.2 }
        match u.get_series with
        | .error _ => (st, ["server_info", "get_live_streams", "get_series"], true)
        | .ok ser =>
          let r := filter_streams p ser st.whitelist_category_updated
          let st := { st with get_series := some r.1,
                              whitelist_category_updated := r.2 }
          match u.get_vod_streams with
          | .error _ =>
            (st, ["server_info", "get_live_streams", "get_series",
                  "get_vod_streams"], true)
          | .ok vs =>
            let r := filter_streams p vs st.whitelist_category_updated
            let st := { st with get_vod_streams := some r.1,
                                whitelist_category_updated := r.2 }
            match u.get_live_categories with
            | .error _ =>
              (st, ["server_info", "get_live_streams", "get_series",
                    "get_vod_streams", "get_live_categories"], true)
            | .ok lc =>
              let flc := filter_categories st.whitelist_category_updated lc
              let st := { st with get_live_categories := some flc }
              match u.get_series_categories with
              | .error _ =>
                (st, ["server_info", "get_live_streams", "get_series",
                      "get_vod_streams", "get_live_categories",
                      "get_series_categories"], true)
              | .ok sc =>
                let fsc := filter_categories st.whitelist_category_updated sc
                let st := { st with get_series_categories := some fsc }
                match u.get_vod_categories with
                | .error _ => (st, fullTrace, true)
                | .ok vc =>
                  let fvc := filter_categories st.whitelist_category_updated vc
                  let st := { st with get_vod_categories := some fvc,
                                      lastRefresh := now }
                  (st, fullTrace, false)

/-- Whether an `Except` is a success. -/
def exceptIsOk : Except FetchErr α → Bool
  | .ok _ => true
  | .error _ => false

/-- Every catalog fetch of a full refresh succeeds. -/
def upstreamAllOk (u : Upstream) : Bool :=
  exceptIsOk u.server_info && exceptIsOk u.get_live_streams
    && exceptIsOk u.get_series && exceptIsOk u.get_vod_streams
    && exceptIsOk u.get_live_categories && exceptIsOk u.get_series_categories
    && exceptIsOk u.get_vod_categories

/-! ### The request handler -/

/-- A JSON body sent to the client by `local_api`. -/
inductive Payload where
  | obj (si : ServerInfo)
  | streams (l : List StreamRecord)
  | cats (l : List CategoryRecord)
  | raw (j : Nat)
  | emptyObj
  | emptyList
deriving DecidableEq, Repr

/-- `CACHE.get(action, [])` for a non-empty action string. -/
def cacheLookup (st : CacheState) (a : String) : Payload :=
  if a = "server_info" then
    match st.server_info with
    | some si => .obj si
    | none => .emptyList
  else if a = "get_live_streams" then
    match st.get_live_streams with
    | some l => .streams l
    | none => .emptyList
  else if a = "get_series" then
    match st.get_series with
    | some l => .streams l
    | none => .emptyList
  else if a = "get_vod_streams" then
    match st.get_vod_streams with
    | some l => .streams l
    | none => .emptyList
  else if a = "get_live_categories" then
    match st.get_live_categories with
    | some l => .cats l
    | none => .emptyList
  else if a = "get_series_categories" then
    match st.get_series_categories with
    | some l => .cats l
    | none => .emptyList
  else if a = "get_vod_categories" then
    match st.get_vod_categories with
    | some l => .cats l
    | none => .emptyList
  else
    .emptyList

/-- `CACHE.get("server_info", {})`, the no-action branch. -/
def serverInfoLookup (st : CacheState) : Payload :=
  match st.server_info with
  | some si => .obj si
  | none => .emptyObj

/-- The `/player_api.php` handler. `action` is the query parameter
(`none` = absent). The result is the new globals and either `.ok` with the
JSON body or `.error` when an uncaught exception escapes to Flask (the
client then receives an error response, not data). `refresh_cache()` runs
first, before any dispatch on the action; Python's `if not action:` is
true for both a missing and an empty parameter. -/
def local_api (p : Policy) (u : Upstream) (now : Int) (st : CacheState)
    (action : Option String) : CacheState × Except FetchErr Payload :=
  match refresh_cache p u now st with
  | (st2, _, true) => (st2, .error .fetchFailed)
  | (st2, _, false) =>
    match action with
    | some a =>
      if a = "get_series_info" then
        (st2, Except.map Payload.raw u.get_series_info)
      else if a = "get_vod_info" then
        (st2, Except.map Payload.raw u.get_vod_info)
      else if a = "get_simple_data_table" then
        (st2, Except.map Payload.raw u.get_simple_data_table)
      else if a = "" then
        (st2, .ok (serverInfoLookup st2))
      else
        (st2, .ok (cacheLookup st2 a))
    | none => (st2, .ok (serverInfoLookup st2))

/-- The actions served from the cache: no action (or the empty string)
and the six catalog actions. -/
def cachedAction : Option String → Bool
  | none => true
  | some a =>
    a = "" || a = "get_live_streams" || a = "get_series"
      || a = "get_vod_streams" || a = "get_live_categories"
      || a = "get_series_categories" || a = "get_vod_categories"

/-! ### Helper lemmas -/

/-- `filter_categories` is the identity when the discovered list is empty
and otherwise a `List.filter` on membership of the record's category id. -/
lemma filter_categories_char (w : List (Option String)) (cs : List CategoryRecord) :
    filter_categories w cs =
      if w.isEmpty then cs
      else cs.filter fun c => w.contains (some (c.category_id.getD nulStr)) := by
  induction cs with
  | nil => simp [filter_categories]
  | cons c rest ih =>
    by_cases hw : w.isEmpty <;>
      by_cases hc : some (c.category_id.getD nulStr) ∈ w <;>
        simp [filter_categories, hw, hc, ih, List.filter_cons]

/-- The records kept by `filter_streams` are exactly the input records
passing `streamKept`, in input order; the discovered list plays no part. -/
lemma filter_streams_fst_filter (p : Policy) (ss : List StreamRecord)
    (w : List (Option String)) :
    (filter_streams p ss w).1 = ss.filter (streamKept p) := by
  induction ss generalizing w with
  | nil => simp [filter_streams]
  | cons s rest ih =>
    by_cases hk : streamKept p s <;> simp [filter_streams, hk, ih]

/-- `filter_streams` appends exactly the kept records' category ids (in
order) to the discovered list. -/
lemma filter_streams_snd_append (p : Policy) (ss : List StreamRecord)
    (w : List (Option String)) :
    (filter_streams p ss w).2 =
      w ++ ((filter_streams p ss w).1.map StreamRecord.category_id) := by
  induction ss generalizing w with
  | nil => simp [filter_streams]
  | cons s rest ih =>
    by_cases hk : streamKept p s
    · simp only [filter_streams, hk, if_pos, List.map_cons]
      rw [ih]
      simp
    · simp [filter_streams, hk, ih]

/-- Membership in the discovered list survives a `filter_streams` pass. -/
lemma mem_filter_streams_snd (p : Policy) (ss : List StreamRecord)
    (w : List (Option String)) (x : Option String) (hx : x ∈ w) :
    x ∈ (filter_streams p ss w).2 := by
  rw [filter_streams_snd_append]
  exact List.mem_append_left _ hx

/-- A refresh cycle never removes members from the discovered list. -/
lemma refresh_whitelist_mono (p : Policy) (u : Upstream) (now : Int)
    (st : CacheState) (x : Option String)
    (hx : x ∈ st.whitelist_category_updated) :
    x ∈ (refresh_cache p u now st).1.whitelist_category_updated := by
  unfold refresh_cache
  obtain ⟨usi, uls, user, uvod, ulc, usc, uvc, u₁, u₂, u₃⟩ := u
  dsimp only
  split
  · exact hx
  · cases usi <;> cases uls <;> cases user <;> cases uvod <;>
      cases ulc <;> cases usc <;> cases uvc <;>
        solve_by_elim [mem_filter_streams_snd]

/-- A refresh cycle that raises leaves `LAST_REFRESH` untouched. -/
lemma refresh_raised_lastRefresh (p : Policy) (u : Upstream) (now : Int)
    (st : CacheState) (hr : (refresh_cache p u now st).2.2 = true) :
    (refresh_cache p u now st).1.lastRefresh = st.lastRefresh := by
  obtain ⟨usi, uls, user, uvod, ulc, usc, uvc, u₁, u₂, u₃⟩ := u
  unfold refresh_cache at hr ⊢
  by_cases hlt : now - st.lastRefresh < REFRESH_INTERVAL
  · rw [if_pos hlt] at hr
    exact absurd hr (by simp)
  · rw [if_neg hlt] at hr ⊢
    cases usi <;> cases uls <;> cases user <;> cases uvod <;>
      cases ulc <;> cases usc <;> cases uvc <;> simp_all

/-- For a string other than `"\0"` itself, Python's substring test treats
the hay `"\0"` exactly like the hay `""`. -/
lemma pyIn_nulStr (n : String) (hn : n ≠ nulStr) : pyIn n nulStr = pyIn n "" := by
  obtain ⟨d⟩ := n
  rcases d with _ | ⟨a, _ | ⟨b, rest⟩⟩
  · rfl
  · by_cases ha : a = '\x00'
    · subst ha; exact absurd rfl hn
    · simp [pyIn, nulStr, listIsInfixB, listIsPrefixOfB, ha]
  · simp [pyIn, nulStr, listIsInfixB, listIsPrefixOfB]

/-- Lifting `pyIn_nulStr` over a policy list not containing `"\0"`. -/
lemma any_pyIn_nulStr (l : List String) (hl : nulStr ∉ l) :
    (l.any fun n => pyIn n nulStr) = l.any fun n => pyIn n "" := by
  induction l with
  | nil => rfl
  | cons n rest ih =>
    simp only [List.mem_cons, not_or] at hl
    simp only [List.any_cons]
    rw [pyIn_nulStr n (fun h => hl.1 h.symm), ih hl.2]

/-! ### Concrete fixtures for witnesses and counterexamples -/

/-- The policy of the spec's §8 scenario. -/
def p6 : Policy := ⟨["news"], ["xxx"], []⟩

/-- Scenario stream: whitelisted by name, not blacklisted. -/
def bbc : StreamRecord := ⟨some "BBC News", some "1", 10⟩

/-- Scenario stream: whitelisted by name but blacklisted. -/
def xxxn : StreamRecord := ⟨some "XXX News", some "1", 11⟩

/-- Scenario stream: no whitelist match, category not admitted. -/
def sports : StreamRecord := ⟨some "Sports", some "2", 12⟩

/-- Scenario category record with id "1". -/
def catRec1 : CategoryRecord := ⟨some "1", 20⟩

/-- Scenario category record with id "2". -/
def catRec2 : CategoryRecord := ⟨some "2", 21⟩

/-- A concrete upstream `server_info` payload with credentials. -/
def si0 : ServerInfo := ⟨some ⟨"u", "p", 0⟩, some ⟨"http://x", 1⟩, 2⟩

/-- An upstream where every fetch succeeds. -/
def uOK : Upstream :=
  ⟨.ok si0, .ok [bbc, xxxn, sports], .ok [], .ok [], .ok [catRec1, catRec2],
   .ok [], .ok [], .ok 0, .ok 0, .ok 0⟩

/-- The same upstream with the `get_vod_streams` fetch failing. -/
def uVodFail : Upstream := { uOK with get_vod_streams := .error .fetchFailed }

/-- The same upstream with the `get_live_streams` fetch failing. -/
def uLiveFail : Upstream := { uOK with get_live_streams := .error .fetchFailed }

/-- The initial process state under policy `p6`: empty cache,
`LAST_REFRESH = 0`, discovered list as seeded at load. -/
def st0 : CacheState := ⟨none, none, none, none, none, none, none, 0, initialDiscovered p6⟩

/-- A state whose cache holds an earlier cycle's (distinct) payloads. -/
def stOld : CacheState :=
  ⟨some si0, some [sports], some [sports], some [sports],
   some [catRec2], some [catRec2], some [catRec2], 0, [some "2"]⟩

/-- The state produced by a fully successful refresh from `st0` with
upstream `uOK` at time 86400. -/
def stAfter : CacheState :=
  ⟨some ⟨some ⟨"-", "-", 0⟩, some ⟨"-", 1⟩, 2⟩,
   some [bbc], some [], some [], some [catRec1], some [], some [],
   86400, [some "1"]⟩

/-! ### The claims -/

/-- Claim C4: the discovered category list is seeded from the static
category whitelist at load (so the static list is a subset of it), a
`filter_streams` pass appends exactly the surviving records' category ids
(duplicates allowed), and no refresh cycle ever removes a member. -/
theorem claim4_discovered_monotone :
    (∀ p : Policy, ∀ c ∈ p.whitelistCategory, some c ∈ initialDiscovered p) ∧
    (∀ (p : Policy) (ss : List StreamRecord) (w : List (Option String)),
      (filter_streams p ss w).2 =
        w ++ ((filter_streams p ss w).1.map StreamRecord.category_id)) ∧
    (∀ (p : Policy) (u : Upstream) (now : Int) (st : CacheState)
        (x : Option String), x ∈ st.whitelist_category_updated →
      x ∈ (refresh_cache p u now st).1.whitelist_category_updated) := by
  refine ⟨?_, filter_streams_snd_append, refresh_whitelist_mono⟩
  intro p c hc
  simp only [initialDiscovered, List.mem_map]
  exact ⟨c, hc, rfl⟩

/-- Claim C4, witness: concrete instances of the seeding-subset part and
of refresh preserving a discovered member. -/
theorem claim4_witness :
    some "9" ∈ initialDiscovered ⟨[], [], ["9"]⟩ ∧
    some "2" ∈ (refresh_cache p6 uVodFail 86400 stOld).1.whitelist_category_updated :=
  ⟨claim4_discovered_monotone.1 ⟨[], [], ["9"]⟩ "9" (by decide),
   claim4_discovered_monotone.2.2 p6 uVodFail 86400 stOld (some "2") (by decide)⟩

/-- Claim C5: `filter_categories` returns the input unchanged when the
discovered list is empty, and otherwise keeps exactly the records whose
category id is a member, unmodified and in input order (its output is a
sublist of its input); it is a pure function of its two arguments. -/
theorem claim5_filter_categories (w : List (Option String))
    (cs : List CategoryRecord) :
    (filter_categories w cs =
      if w.isEmpty then cs
      else cs.filter fun c => w.contains (some (c.category_id.getD nulStr))) ∧
    List.Sublist (filter_categories w cs) cs := by
  refine ⟨filter_categories_char w cs, ?_⟩
  rw [filter_categories_char]
  by_cases hw : w.isEmpty
  · simp [hw]
  · rw [if_neg hw]
    exact List.filter_sublist cs

/-- Claim C6: the spec's §8 scenario, evaluated on the code: only the
"BBC News" stream survives, the discovered list becomes `["1"]`, and
category filtering then keeps only category "1". -/
theorem claim6_scenario :
    filter_streams p6 [bbc, xxxn, sports] (initialDiscovered p6)
      = ([bbc], [some "1"]) ∧
    filter_categories
      (filter_streams p6 [bbc, xxxn, sports] (initialDiscovered p6)).2
      [catRec1, catRec2] = [catRec1] := by decide

/-- Claim C9: `filter_categories` with an unchanged discovered list is
idempotent. -/
theorem claim9_idempotent (w : List (Option String)) (cs : List CategoryRecord) :
    filter_categories w (filter_categories w cs) = filter_categories w cs := by
  rw [filter_categories_char w cs, filter_categories_char w]
  by_cases hw : w.isEmpty
  · simp [hw]
  · rw [if_neg hw, if_neg hw, List.filter_filter]
    simp

/-- Claim C10: the records returned by `filter_streams` do not depend on
the state of the mutable discovered list — only the static policy and the
input determine which records are kept. -/
theorem claim10_noninterference (p : Policy) (ss : List StreamRecord)
    (w₁ w₂ : List (Option String)) :
    (filter_streams p ss w₁).1 = (filter_streams p ss w₂).1 := by
  rw [filter_streams_fst_filter, filter_streams_fst_filter]

/-- Claim C1, counterexample: with an empty name whitelist, an empty
static category whitelist, and a discovered list holding the record's
category id, the spec's admission test says true but the code's
`good_stream` says false and `filter_streams` drops the record: the code
neither admits everything on an empty whitelist nor consults the mutable
discovered list. -/
theorem claim1_counterexample :
    specIsStreamAdmitted ⟨[], [], []⟩ [some "5"] ⟨some "foo", some "5", 0⟩ = true ∧
    good_stream ⟨[], [], []⟩ ⟨some "foo", some "5", 0⟩ = false ∧
    (filter_streams ⟨[], [], []⟩ [⟨some "foo", some "5", 0⟩] [some "5"]).1 = [] := by
  decide

/-- Claim C1 (amended): the code's admission test returns true iff some
whitelist entry is a substring of the lowercased stripped name OR the
record's category id (default `"\0"`) is in the STATIC category whitelist;
still, whenever the static whitelist is contained in the discovered list,
a record with no whitelist match whose category id is absent from the
discovered list is dropped, regardless of blacklist. -/
theorem claim1_admission (p : Policy) (w : List (Option String))
    (s : StreamRecord) :
    (good_stream p s = true ↔
      ((∃ n ∈ p.whitelist, pyIn n (normName s) = true) ∨
        s.category_id.getD nulStr ∈ p.whitelistCategory)) ∧
    ((∀ c ∈ p.whitelistCategory, some c ∈ w) →
      (∀ n ∈ p.whitelist, pyIn n (normName s) = false) →
      some (s.category_id.getD nulStr) ∉ w →
      streamKept p s = false) := by
  constructor
  · simp [good_stream, List.any_eq_true]
  · intro hsub hnomatch hnotin
    have hcat : s.category_id.getD nulStr ∉ p.whitelistCategory :=
      fun hc => hnotin (hsub _ hc)
    have h1 : (p.whitelist.any fun n => pyIn n (normName s)) = false := by
      simp only [List.any_eq_false]
      intro n hn
      simp [hnomatch n hn]
    simp [streamKept, good_stream, h1, hcat]

/-- Claim C1, witness: a concrete record with no name match and a category
id outside the discovered list is dropped even though the static whitelist
is contained in the discovered list. -/
theorem claim1_witness :
    streamKept ⟨["news"], [], ["9"]⟩ ⟨some "Sports", some "2", 0⟩ = false :=
  (claim1_admission ⟨["news"], [], ["9"]⟩ [some "9"]
    ⟨some "Sports", some "2", 0⟩).2 (by decide) (by decide) (by decide)

/-- Claim C8, counterexample: a record with no `name` field is evaluated
with name `"\0"`, not `""`: under the policy whose whitelist is the single
entry `"\0"`, the nameless record is kept while the same record with name
`""` is dropped, so the keep/drop decisions differ. -/
theorem claim8_counterexample :
    (filter_streams ⟨[nulStr], [], []⟩ [⟨none, some "c", 0⟩] []).1
      = [⟨none, some "c", 0⟩] ∧
    (filter_streams ⟨[nulStr], [], []⟩ [⟨some "", some "c", 0⟩] []).1 = [] := by
  decide

/-- Claim C8 (amended): a record lacking `name` never aborts the batch: it
is evaluated under the normal rules exactly as if its name were the
one-character NUL string `"\0"`; whenever neither policy list contains the
entry `"\0"` itself, that decision coincides with the one for the empty
string `""`. -/
theorem claim8_missing_name (p : Policy) (cat : Option String) (pay : Nat) :
    streamKept p ⟨none, cat, pay⟩ = streamKept p ⟨some nulStr, cat, pay⟩ ∧
    (nulStr ∉ p.whitelist → nulStr ∉ p.blacklist →
      streamKept p ⟨none, cat, pay⟩ = streamKept p ⟨some "", cat, pay⟩) := by
  refine ⟨rfl, fun hw hb => ?_⟩
  have hn : normName ⟨none, cat, pay⟩ = nulStr := rfl
  have he : normName ⟨some "", cat, pay⟩ = "" := rfl
  simp only [streamKept, good_stream, bad_stream, hn, he]
  rw [any_pyIn_nulStr _ hw, any_pyIn_nulStr _ hb]

/-- Claim C8, witness: under the scenario policy (which contains no NUL
entry), the nameless record's decision equals the empty-name record's. -/
theorem claim8_witness :
    streamKept p6 ⟨none, some "z", 0⟩ = streamKept p6 ⟨some "", some "z", 0⟩ :=
  (claim8_missing_name p6 (some "z") 0).2 (by decide) (by decide)

/-- Claim C2, counterexample: with a populated cache and the
`get_vod_streams` fetch failing mid-refresh, the refresh raises and the
previously cached `get_live_streams` and `get_series` payloads do NOT
remain as they were — they have already been overwritten — so the
abandonment is not atomic. -/
theorem claim2_counterexample :
    (refresh_cache p6 uVodFail 86400 stOld).2.2 = true ∧
    (refresh_cache p6 uVodFail 86400 stOld).1.get_live_streams
      ≠ stOld.get_live_streams ∧
    (refresh_cache p6 uVodFail 86400 stOld).1.get_series
      ≠ stOld.get_series := by decide

/-- Claim C2 (amended): when the `get_vod_streams` fetch fails mid-refresh
(the earlier fetches having succeeded), the refresh raises and
`LAST_REFRESH` is unchanged — so the next request retries immediately —
but the protection is not atomic: the keys at and after the failing
action retain their prior payloads while `server_info` and the stream
keys fetched before the failure already hold the new cycle's values. -/
theorem claim2_abandon_not_atomic (p : Policy) (u : Upstream) (now : Int)
    (st : CacheState) (si : ServerInfo) (ls ser : List StreamRecord)
    (e : FetchErr)
    (hdue : ¬ now - st.lastRefresh < REFRESH_INTERVAL)
    (hsi : u.server_info = .ok si) (hls : u.get_live_streams = .ok ls)
    (hser : u.get_series = .ok ser) (hvod : u.get_vod_streams = .error e) :
    (refresh_cache p u now st).2.2 = true ∧
    (refresh_cache p u now st).1.lastRefresh = st.lastRefresh ∧
    (refresh_cache p u now st).1.get_vod_streams = st.get_vod_streams ∧
    (refresh_cache p u now st).1.get_live_categories = st.get_live_categories ∧
    (refresh_cache p u now st).1.get_series_categories = st.get_series_categories ∧
    (refresh_cache p u now st).1.get_vod_categories = st.get_vod_categories ∧
    (refresh_cache p u now st).1.server_info = some (redactServerInfo si) ∧
    (refresh_cache p u now st).1.get_live_streams =
      some (filter_streams p ls st.whitelist_category_updated).1 := by
  unfold refresh_cache
  rw [if_neg hdue, hsi, hls, hser, hvod]
  simp

/-- Claim C2, witness: the amended behaviour at the concrete mid-refresh
failure scenario. -/
theorem claim2_witness :
    (refresh_cache p6 uVodFail 86400 stOld).2.2 = true ∧
    (refresh_cache p6 uVodFail 86400 stOld).1.lastRefresh = stOld.lastRefresh ∧
    (refresh_cache p6 uVodFail 86400 stOld).1.get_vod_streams = stOld.get_vod_streams ∧
    (refresh_cache p6 uVodFail 86400 stOld).1.get_live_categories = stOld.get_live_categories ∧
    (refresh_cache p6 uVodFail 86400 stOld).1.get_series_categories = stOld.get_series_categories ∧
    (refresh_cache p6 uVodFail 86400 stOld).1.get_vod_categories = stOld.get_vod_categories ∧
    (refresh_cache p6 uVodFail 86400 stOld).1.server_info = some (redactServerInfo si0) ∧
    (refresh_cache p6 uVodFail 86400 stOld).1.get_live_streams =
      some (filter_streams p6 [bbc, xxxn, sports] stOld.whitelist_category_updated).1 :=
  claim2_abandon_not_atomic p6 uVodFail 86400 stOld si0 [bbc, xxxn, sports] []
    .fetchFailed (by decide) rfl rfl rfl rfl

/-- Claim C3, counterexample: a request for the cached action
`get_live_streams` whose triggered refresh hits a failing upstream fetch
receives an error response, not data — the exception propagates out of
`refresh_cache` through the handler. -/
theorem claim3_counterexample :
    cachedAction (some "get_live_streams") = true ∧
    (local_api p6 uLiveFail 86400 st0 (some "get_live_streams")).2
      = .error .fetchFailed :=
  ⟨by decide, rfl⟩

/-- Claim C3 (amended): an `UpstreamFetchError` raised during the refresh
triggered by a request IS propagated as a client-visible error (for every
action); only when the refresh does not raise does a cached-action request
always receive data (stale or empty). -/
theorem claim3_error_propagation (p : Policy) (u : Upstream) (now : Int)
    (st : CacheState) (a : Option String) (hca : cachedAction a = true) :
    ((refresh_cache p u now st).2.2 = true →
      (local_api p u now st a).2 = .error .fetchFailed) ∧
    ((refresh_cache p u now st).2.2 = false →
      ∃ pl, (local_api p u now st a).2 = .ok pl) := by
  rcases hrw : refresh_cache p u now st with ⟨st2, tr, raised⟩
  constructor
  · intro hrT
    have hr2 : raised = true := hrT
    subst hr2
    simp [local_api, hrw]
  · intro hrF
    have hr2 : raised = false := hrF
    subst hr2
    match a with
    | none => exact ⟨serverInfoLookup st2, by simp [local_api, hrw]⟩
    | some s =>
      simp only [cachedAction, Bool.or_eq_true, decide_eq_true_eq] at hca
      rcases hca with ((((((h | h) | h) | h) | h) | h) | h) <;> subst h
      · exact ⟨serverInfoLookup st2, by simp [local_api, hrw]⟩
      · exact ⟨cacheLookup st2 "get_live_streams", by simp [local_api, hrw]⟩
      · exact ⟨cacheLookup st2 "get_series", by simp [local_api, hrw]⟩
      · exact ⟨cacheLookup st2 "get_vod_streams", by simp [local_api, hrw]⟩
      · exact ⟨cacheLookup st2 "get_live_categories", by simp [local_api, hrw]⟩
      · exact ⟨cacheLookup st2 "get_series_categories", by simp [local_api, hrw]⟩
      · exact ⟨cacheLookup st2 "get_vod_categories", by simp [local_api, hrw]⟩

/-- Claim C3, witness: concrete instances — the failing refresh surfaces
an error to the client; the successful refresh serves cached data. -/
theorem claim3_witness :
    (local_api p6 uLiveFail 86400 st0 (some "get_live_streams")).2
      = .error .fetchFailed ∧
    (∃ pl, (local_api p6 uOK 86400 st0 (some "get_live_streams")).2
      = .ok pl) :=
  ⟨(claim3_error_propagation p6 uLiveFail 86400 st0 (some "get_live_streams")
      (by decide)).1 (by decide),
   (claim3_error_propagation p6 uOK 86400 st0 (some "get_live_streams")
      (by decide)).2 (by decide)⟩

/-- Claim C7: after a refresh that completed successfully at time `t₁`
(so the timestamp is `t₁`), a call within the interval performs no fetch
and changes nothing, and a call at `t₂` with `t₂ - t₁ ≥ REFRESH_INTERVAL`
whose fetches all succeed performs exactly the one full fetch sequence
and sets the timestamp to `t₂`. -/
theorem claim7_refresh_interval (p : Policy) (u₁ u₂ : Upstream)
    (t₁ t₂ : Int) (st st₁ : CacheState) (tr₁ : List String)
    (h₁ : refresh_cache p u₁ t₁ st = (st₁, tr₁, false))
    (hts : st₁.lastRefresh = t₁) :
    (t₂ - t₁ < REFRESH_INTERVAL →
      refresh_cache p u₂ t₂ st₁ = (st₁, [], false)) ∧
    (REFRESH_INTERVAL ≤ t₂ - t₁ → upstreamAllOk u₂ = true →
      (refresh_cache p u₂ t₂ st₁).2.1 = fullTrace ∧
      (refresh_cache p u₂ t₂ st₁).1.lastRefresh = t₂) := by
  constructor
  · intro hlt
    unfold refresh_cache
    rw [hts, if_pos hlt]
  · intro hge hok
    have hnlt : ¬ t₂ - st₁.lastRefresh < REFRESH_INTERVAL := by
      rw [hts]; exact not_lt.mpr hge
    obtain ⟨usi, uls, user, uvod, ulc, usc, uvc, v₁, v₂, v₃⟩ := u₂
    cases usi with
    | error e => simp [upstreamAllOk, exceptIsOk] at hok
    | ok si =>
    cases uls with
    | error e => simp [upstreamAllOk, exceptIsOk] at hok
    | ok ls =>
    cases user with
    | error e => simp [upstreamAllOk, exceptIsOk] at hok
    | ok ser =>
    cases uvod with
    | error e => simp [upstreamAllOk, exceptIsOk] at hok
    | ok vs =>
    cases ulc with
    | error e => simp [upstreamAllOk, exceptIsOk] at hok
    | ok lc =>
    cases usc with
    | error e => simp [upstreamAllOk, exceptIsOk] at hok
    | ok sc =>
    cases uvc with
    | error e => simp [upstreamAllOk, exceptIsOk] at hok
    | ok vc =>
      unfold refresh_cache
      rw [if_neg hnlt]
      exact ⟨rfl, rfl⟩

/-- Claim C7, witness: from the concrete post-refresh state at time 86400,
a call at 86500 is a no-op, and a call at 200000 with an all-successful
upstream performs the full fetch sequence and moves the timestamp. -/
theorem claim7_witness :
    refresh_cache p6 uOK 86500 stAfter = (stAfter, [], false) ∧
    ((refresh_cache p6 uOK 200000 stAfter).2.1 = fullTrace ∧
     (refresh_cache p6 uOK 200000 stAfter).1.lastRefresh = 200000) :=
  ⟨(claim7_refresh_interval p6 uOK uOK 86400 86500 st0 stAfter fullTrace
      (by decide) rfl).1 (by decide),
   (claim7_refresh_interval p6 uOK uOK 86400 200000 st0 stAfter fullTrace
      (by decide) rfl).2 (by decide) (by decide)⟩

end XtreamProxy
